import Mathlib

/-!
Shallow embedding of the alzheimer-speech-classifier inference pipeline
(segmentation, per-segment scoring, weighted-majority voting, cleanup),
translated from `src/backend/src/segmentation.py`, `src/server/server/segmentation.py`,
`src/server/server/prediction.py`, `src/backend/src/prediction_script.py`,
`src/backend/api/prediction.py`, `src/backend/src/transcription.py` and
`src/backend/src/linguistic_extraction.py`.

Audio is modelled as its list of millisecond frames (`List Int`); pydub slicing,
repetition and truncation become the corresponding list operations.  Probabilities
are rationals.  Python exceptions become explicit outcome constructors.
-/

namespace AlzSpeech

/-! ## Segmentation (segmentation.py) -/

/-- Target segment length in milliseconds: `twenty_sec_ms = 20 * 1000`. -/
def twenty_sec_ms : Nat := 20 * 1000

/-- Python slice `audio[s:e]` for `0 ≤ s ≤ e` on a pydub `AudioSegment`
modelled as its list of millisecond frames. -/
def pySlice (a : List Int) (s e : Nat) : List Int := (a.drop s).take (e - s)

/-- pydub `audio * n`: the clip repeated `n` times. -/
def pyRepeat (a : List Int) (n : Nat) : List Int := (List.replicate n a).flatten

/-- Python slice `audio[-r:]` for `0 < r ≤ len(audio)`: the last `r` milliseconds. -/
def pyTailSlice (a : List Int) (r : Nat) : List Int := a.drop (a.length - r)

/-- `process_short_audio` (segmentation.py lines 111-119): loop the whole clip
`target // len + 1` times and truncate to the 20s target, exporting one file.
(When the clip is empty Python raises `ZeroDivisionError` at `target_ms // duration_ms`;
the caller `processAudio` models that case.) -/
def process_short_audio (a : List Int) : List (List Int) :=
  [(pyRepeat a (twenty_sec_ms / a.length + 1)).take twenty_sec_ms]

/-- The `num_segments` full 20-second slices of `process_long_audio`
(segmentation.py lines 127-136), in time order. -/
def fullSegments (a : List Int) : List (List Int) :=
  (List.range (a.length / twenty_sec_ms)).map (fun i =>
    pySlice a (i * twenty_sec_ms) (i * twenty_sec_ms + twenty_sec_ms))

/-- `process_long_audio` (segmentation.py lines 125-147): export `duration // 20000`
full slices in time order; if a positive remainder `remainder_ms` is left, take
`audio[-remainder_ms:]`, loop it `20000 // remainder_ms + 1` times and truncate
to 20s for one extra segment. -/
def process_long_audio (a : List Int) : List (List Int) :=
  if 0 < a.length % twenty_sec_ms then
    fullSegments a ++
      [(pyRepeat (pyTailSlice a (a.length % twenty_sec_ms))
        (twenty_sec_ms / (a.length % twenty_sec_ms) + 1)).take twenty_sec_ms]
  else fullSegments a

/-- Observable outcome of `process_single_audio_file`: the exported segments, an
early `return` that exports nothing, an uncaught `ZeroDivisionError` (empty clip),
or the typed decode failure the spec demands (never produced by the code). -/
inductive SegOutcome where
  | ok (segs : List (List Int))
  | earlyReturn
  | zeroDivisionError
  | decodeError
deriving DecidableEq

/-- Decode behaviour of one uploaded file: `native` is the pydub decode result
(`none` models `CouldntDecodeError`); `reencode` is `none` when the ffmpeg
re-encode step fails, and otherwise carries the decode result of the re-encoded
file (`some none` = the single retry also fails to decode). -/
structure AudioFile where
  native : Option (List Int)
  reencode : Option (Option (List Int))

/-- Duration dispatch of `process_single_audio_file` (segmentation.py lines 72-78)
after a successful decode: short clips are padded, long clips split; an empty
clip raises `ZeroDivisionError` inside `process_short_audio`. -/
def processAudio (a : List Int) : SegOutcome :=
  if a.length = 0 then .zeroDivisionError
  else if a.length < twenty_sec_ms then .ok (process_short_audio a)
  else .ok (process_long_audio a)

/-- `process_single_audio_file` (segmentation.py lines 55-78): try the native
decode; on `CouldntDecodeError` run `reencode_audio` and retry the decode exactly
once; if the re-encode or the retry fails, `return` without exporting anything. -/
def process_single_audio_file (f : AudioFile) : SegOutcome :=
  match f.native with
  | some a => processAudio a
  | none =>
    match f.reencode with
    | none => .earlyReturn
    | some none => .earlyReturn
    | some (some a) => processAudio a

/-- Number of segments the claim predicts for a clip of `d` milliseconds. -/
def expectedSegCount (d : Nat) : Nat :=
  if d < twenty_sec_ms then 1
  else d / twenty_sec_ms + (if d % twenty_sec_ms = 0 then 0 else 1)

/-! ## Aggregation (src/server/server/prediction.py lines 67-70) -/

/-- One audit row fed to the vote: the per-segment binary prediction and
positive-class probability (`Prediction`, `Probability` columns). -/
structure ScoredSegment where
  prediction : Nat
  probability : ℚ
deriving DecidableEq

/-- `df[df['Prediction'] == 1]['Probability'].sum()`. -/
def weightedSum1 (rows : List ScoredSegment) : ℚ :=
  ((rows.filter (fun r => r.prediction == 1)).map (fun r => r.probability)).sum

/-- `(1 - df[df['Prediction'] == 0]['Probability']).sum()`. -/
def weightedSum0 (rows : List ScoredSegment) : ℚ :=
  ((rows.filter (fun r => r.prediction == 0)).map (fun r => 1 - r.probability)).sum

/-- `weighted_majority_voting`: `1 if weighted_sum_1 > weighted_sum_0 else 0`. -/
def weighted_majority_voting (rows : List ScoredSegment) : Nat :=
  if weightedSum1 rows > weightedSum0 rows then 1 else 0

/-! ## Per-segment thresholding (prediction_script.py) -/

/-- Fixed binarization constant: `threshold = 0.28`. -/
def threshold : ℚ := 28 / 100

/-- `predicted_label = 1 if positive_prob >= threshold else 0`. -/
def predictedLabel (p : ℚ) : Nat := if threshold ≤ p then 1 else 0

/-! ## Python exceptions the pipeline can raise -/

/-- Exceptions observable in the embedded fragment. -/
inductive PyErr where
  | attributeError
  | notFitted
  | fileNotFound
deriving DecidableEq

/-! ## Scaler behaviour (src/server/server/prediction.py `predict`,
src/backend/api/prediction.py `predict_final_classification`) -/

/-- A `StandardScaler` as the Scorer sees it: either never fit, or fit with a
per-column mean and scale. -/
inductive Scaler where
  | unfitted
  | fitted (mean scale : List ℚ)

/-- `scaler.transform(x)`: raises `NotFittedError` when the scaler was never
fit, otherwise standardizes each column. -/
def Scaler.transform : Scaler → List ℚ → Except PyErr (List ℚ)
  | .unfitted, _ => .error .notFitted
  | .fitted m s, x => .ok ((x.zip (m.zip s)).map (fun p => (p.1 - p.2.1) / p.2.2))

/-- `scaler.fit_transform(x)` on the single inference row of
`backend/api/prediction.py`: fitting `StandardScaler` on one sample sets
`mean_ = x` and zero variance (so `scale_` is clamped to 1), hence transforming
that same row yields the all-zero vector. -/
def Scaler.fitTransformSingle (x : List ℚ) : List ℚ := x.map (fun _ => 0)

/-- `predict` (src/server/server/prediction.py lines 43-52): apply the scaler's
transform, then the model's significant-feature selection and `predict_proba`
(the external model object, abstracted as `proba`); an unfitted scaler's
`NotFittedError` propagates. -/
def serverPredict (proba : List ℚ → ℚ) (scaler : Scaler) (x : List ℚ) : Except PyErr ℚ :=
  (scaler.transform x).map proba

/-- The scaling step of `predict_final_classification`
(src/backend/api/prediction.py lines 79-84): try `scaler.transform`; on
`NotFittedError`, fall back to `scaler.fit_transform` on the inference row. -/
def backendScaledFeatures (scaler : Scaler) (x : List ℚ) : List ℚ :=
  match scaler.transform x with
  | .ok scaled => scaled
  | .error _ => Scaler.fitTransformSingle x

/-- The scoring path of the backend API (src/backend/api/prediction.py lines
79-88): scale (fitting on the fly if needed) and produce a probability. -/
def backendScore (proba : List ℚ → ℚ) (scaler : Scaler) (x : List ℚ) : Except PyErr ℚ :=
  .ok (proba (backendScaledFeatures scaler x))

/-! ## Transcription and linguistic extraction
(src/backend/src/transcription.py, src/backend/src/linguistic_extraction.py) -/

/-- The NaN-filled linguistic row: every one of the `n` expected feature keys
present, each with a missing-value marker. -/
def nanRow (n : Nat) : List (Option ℚ) := List.replicate n none

/-- Python's `not transcription.strip()`: the stripped string is falsy exactly
when every character of the original is whitespace. -/
def stripIsEmpty (t : String) : Bool := t.data.all (fun c => c.isWhitespace)

/-- `transcribe_audio` returns the decoded text on success and Python `None`
when any exception occurs (transcription.py lines 85-104); we take its result
directly as `Option String`. `extract_linguistic_features`
(linguistic_extraction.py lines 70-89) first evaluates `transcription.strip()`
OUTSIDE its try block — so a `None` transcription raises `AttributeError` —
then returns the NaN row on empty text, and otherwise runs the SpaCy+LFTK
extractor (`featFn`, external; `none` = it raised, caught, NaN row). -/
def extract_linguistic_features (n : Nat) (featFn : String → Option (List (Option ℚ)))
    (transcription : Option String) : Except PyErr (List (Option ℚ)) :=
  match transcription with
  | none => .error .attributeError
  | some t =>
    if stripIsEmpty t then .ok (nanRow n)
    else
      match featFn t with
      | some feats => .ok feats
      | none => .ok (nanRow n)

/-! ## The per-segment pipeline loop (src/backend/src/prediction_script.py
lines 115-141, mirrored in src/server/server/prediction_script.py lines 56-86) -/

/-- What the pipeline loop observes for one segment: the acoustic feature row
(`none` entries are NaNs) and the transcription result (`none` = Python `None`
returned by `transcribe_audio` after a caught exception). -/
structure SegmentRun where
  acoustic : List (Option ℚ)
  asr : Option String

/-- The feature vector handed to the Scorer for one segment: linguistic
extraction followed by `pd.concat([acoustic_df, linguistic_df], axis=1)`.
No imputation is applied on this path. -/
def segmentScorerInput (n : Nat) (featFn : String → Option (List (Option ℚ)))
    (s : SegmentRun) : Except PyErr (List (Option ℚ)) :=
  (extract_linguistic_features n featFn s.asr).map (fun ling => s.acoustic ++ ling)

/-- One iteration of the pipeline loop: extract linguistic features, concatenate
with the acoustic row, score (`predict`'s scaler+model, abstracted as
`scoreFn`), then binarize at the 0.28 threshold. -/
def runSegment (n : Nat) (featFn : String → Option (List (Option ℚ)))
    (scoreFn : List (Option ℚ) → ℚ) (s : SegmentRun) : Except PyErr (Nat × ℚ) := do
  let ling ← extract_linguistic_features n featFn s.asr
  let combined := s.acoustic ++ ling
  let p := scoreFn combined
  pure (predictedLabel p, p)

/-- The whole loop: Python's `for` raises out of the loop at the first failing
segment, discarding all accumulated results. -/
def runSegments (n : Nat) (featFn : String → Option (List (Option ℚ)))
    (scoreFn : List (Option ℚ) → ℚ) (segs : List SegmentRun) :
    Except PyErr (List (Nat × ℚ)) :=
  segs.mapM (runSegment n featFn scoreFn)

/-- The body of `predict_final_classification` after segmentation: raise
`FileNotFoundError` when segmentation produced no `.wav` files, otherwise score
every segment and apply the weighted majority vote. -/
def pipelineBody (n : Nat) (featFn : String → Option (List (Option ℚ)))
    (scoreFn : List (Option ℚ) → ℚ) (segs : List SegmentRun) : Except PyErr String :=
  if segs.isEmpty then .error .fileNotFound
  else
    (runSegments n featFn scoreFn segs).map (fun rows =>
      if weighted_majority_voting (rows.map (fun r => ⟨r.1, r.2⟩)) = 0 then "HC" else "AD")

/-- `predict_final_classification` (prediction_script.py lines 85-156): any
exception raised by the body is caught by the request-level handler, which
returns the generic failure string. -/
def predict_final_classification (n : Nat) (featFn : String → Option (List (Option ℚ)))
    (scoreFn : List (Option ℚ) → ℚ) (segs : List SegmentRun) : String :=
  match pipelineBody n featFn scoreFn segs with
  | .ok l => l
  | .error _ => "Error: Could not classify audio."

/-! ## Imputation in the other scoring paths (src/backend/api/prediction.py
`prepare_features`, lines 48-64) -/

/-- pandas `fillna` with a per-column fill series: present values stay, missing
ones take the fill value for their column. -/
def fillna (row fill : List (Option ℚ)) : List (Option ℚ) :=
  (row.zip fill).map (fun p => match p.1 with | some v => some v | none => p.2)

/-- Per-column `df.median()` of a single-row frame: the entry itself when
present, and NaN for an all-NaN column (pandas skips NaNs; the median of no
values is NaN). -/
def medianSingleRow (row : List (Option ℚ)) : List (Option ℚ) := row

/-- `combined_df.fillna(combined_df.median(), inplace=True)` as applied by
`prepare_features` to its single-row frame. -/
def prepare_features_fill (row : List (Option ℚ)) : List (Option ℚ) :=
  fillna row (medianSingleRow row)

/-! ## Finalizing cleanup (src/backend/src/prediction_script.py lines 158-162) -/

/-- The filesystem footprint the finalizer touches: the transient
processed-segment directory and the consumed raw upload files. -/
structure FS where
  processedDir : Bool
  recordingWav : Bool
  testConnectionWav : Bool
deriving DecidableEq

/-- How the `try` block finished: a returned value, an exception caught by the
`except Exception` handler, or a `BaseException`-style cancellation that
propagates onward — in every case Python runs the `finally` block first. -/
inductive BodyExit (α : Type) where
  | value (a : α)
  | raised
  | cancelled

/-- `delete_directory(PROCESSED_DIR)`: after it, the directory is gone (it is
removed when present and the call is a no-op otherwise). -/
def delete_directory (fs : FS) : FS := { fs with processedDir := false }

/-- `safe_delete_file(UPLOAD_DIR/recording.wav)`. -/
def safe_delete_recording (fs : FS) : FS := { fs with recordingWav := false }

/-- `safe_delete_file(UPLOAD_DIR/test_connection.wav)`. -/
def safe_delete_testconn (fs : FS) : FS := { fs with testConnectionWav := false }

/-- The `finally` block of `predict_final_classification`. -/
def finalizeCleanup (fs : FS) : FS :=
  safe_delete_testconn (safe_delete_recording (delete_directory fs))

/-- `predict_final_classification`'s `try/except Exception/finally` shape over
an arbitrary body (any stage may return, raise, or be cancelled, and may change
the filesystem): the caught-exception branch substitutes the generic error
label, cancellation propagates, and the `finally` cleanup runs on every path. -/
def predict_final_classification_fs (body : FS → BodyExit String × FS) (fs : FS) :
    BodyExit String × FS :=
  let res := body fs
  let r : BodyExit String :=
    match res.1 with
    | .value l => .value l
    | .raised => .value "Error: Could not classify audio."
    | .cancelled => .cancelled
  (r, finalizeCleanup res.2)

end AlzSpeech

namespace AlzSpeech

/-! ## Helper lemmas about the list model -/

theorem pyRepeat_length (a : List Int) (n : Nat) :
    (pyRepeat a n).length = n * a.length := by
  simp [pyRepeat, List.length_flatten, List.map_replicate, List.sum_replicate, smul_eq_mul]

theorem le_repeat_length (a : List Int) (t : Nat) (h : 0 < a.length) :
    t ≤ (t / a.length + 1) * a.length := by
  have hmod := Nat.div_add_mod t a.length
  have hlt : t % a.length < a.length := Nat.mod_lt _ h
  calc t = a.length * (t / a.length) + t % a.length := hmod.symm
    _ ≤ a.length * (t / a.length) + a.length := by omega
    _ = (t / a.length + 1) * a.length := by ring

/-- Looping a nonempty clip `t / len + 1` times and truncating to `t` yields
exactly `t` milliseconds. -/
theorem loopTrunc_length (a : List Int) (t : Nat) (h : 0 < a.length) :
    ((pyRepeat a (t / a.length + 1)).take t).length = t := by
  rw [List.length_take, pyRepeat_length]
  exact Nat.min_eq_left (le_repeat_length a t h)

theorem pySlice_length_of_le (a : List Int) (s e : Nat) (hse : s ≤ e) (he : e ≤ a.length) :
    (pySlice a s e).length = e - s := by
  rw [pySlice, List.length_take, List.length_drop]
  omega

theorem pyTailSlice_length (a : List Int) (r : Nat) (h : r ≤ a.length) :
    (pyTailSlice a r).length = r := by
  rw [pyTailSlice, List.length_drop]
  omega

theorem le_div_succ_mul (t r : Nat) (h : 0 < r) : t ≤ (t / r + 1) * r := by
  have hmod := Nat.div_add_mod t r
  have hlt : t % r < r := Nat.mod_lt _ h
  calc t = r * (t / r) + t % r := hmod.symm
    _ ≤ r * (t / r) + r := by omega
    _ = (t / r + 1) * r := by ring

theorem take_repeat_length (b : List Int) (k t : Nat) (h : t ≤ k * b.length) :
    ((pyRepeat b k).take t).length = t := by
  rw [List.length_take, pyRepeat_length]
  omega

theorem getD_take (l : List Int) (n i : Nat) (h : i < n) :
    (l.take n).getD i 0 = l.getD i 0 := by
  rw [List.getD_eq_getElem?_getD, List.getD_eq_getElem?_getD, List.getElem?_take_of_lt h]

theorem pyRepeat_getD (b : List Int) (k i : Nat) (h : i < k * b.length) :
    (pyRepeat b k).getD i 0 = b.getD (i % b.length) 0 := by
  induction k generalizing i with
  | zero =>
    rw [Nat.zero_mul] at h
    omega
  | succ k ih =>
    rw [Nat.succ_mul] at h
    have hb : 0 < b.length := by
      by_cases h0 : b.length = 0
      · rw [h0] at h
        omega
      · omega
    have hrepeat : pyRepeat b (k + 1) = b ++ pyRepeat b k := by
      rw [pyRepeat, pyRepeat, List.replicate_succ, List.flatten_cons]
    rw [hrepeat]
    by_cases hi : i < b.length
    · rw [List.getD_eq_getElem?_getD, List.getElem?_append_left hi,
        ← List.getD_eq_getElem?_getD, Nat.mod_eq_of_lt hi]
    · push_neg at hi
      rw [List.getD_eq_getElem?_getD, List.getElem?_append_right hi,
        ← List.getD_eq_getElem?_getD]
      rw [ih (i - b.length) (by omega)]
      congr 1
      conv_rhs => rw [show i = i - b.length + b.length by omega]
      rw [Nat.add_mod_right]

/-! ## Claim theorems -/

/-- C1 (counterexample): a recording that decodes successfully to an empty
(0-second) clip does not yield one 20-second segment: `process_short_audio`'s
`target_ms // duration_ms` raises `ZeroDivisionError`, so segmentation emits no
segment at all. -/
theorem zero_duration_counterexample :
    process_single_audio_file ⟨some [], none⟩ = SegOutcome.zeroDivisionError ∧
    ¬ ∃ segs, process_single_audio_file ⟨some [], none⟩ = SegOutcome.ok segs := by
  refine ⟨rfl, ?_⟩
  rintro ⟨segs, hsegs⟩
  rw [show process_single_audio_file ⟨some [], none⟩ = SegOutcome.zeroDivisionError from rfl]
    at hsegs
  exact SegOutcome.noConfusion hsegs

/-- Every full slice of `process_long_audio` is exactly 20 seconds long. -/
theorem mem_fullSegments_length (a : List Int) (s : List Int) (hs : s ∈ fullSegments a) :
    s.length = twenty_sec_ms := by
  have ht : 0 < twenty_sec_ms := by decide
  unfold fullSegments at hs
  simp only [List.mem_map, List.mem_range] at hs
  obtain ⟨i, hi, hseg⟩ := hs
  subst hseg
  have hle : (i + 1) * twenty_sec_ms ≤ a.length := by
    rw [← Nat.le_div_iff_mul_le ht]
    omega
  have hmul : (i + 1) * twenty_sec_ms = i * twenty_sec_ms + twenty_sec_ms := by ring
  rw [pySlice_length_of_le a _ _ (by omega) (by omega)]
  omega

/-- C1 (amended): for every successfully decoded recording of positive duration
`d` ms, segmentation emits only segments of exactly 20 seconds, and their number
is 1 when `d < 20s`, `d / 20s` when the remainder is zero, and `d / 20s + 1`
otherwise. -/
theorem segment_sizes_and_count (a : List Int) (h : 0 < a.length) :
    ∃ segs, processAudio a = SegOutcome.ok segs ∧
      (∀ s ∈ segs, s.length = twenty_sec_ms) ∧
      segs.length = expectedSegCount a.length := by
  by_cases hshort : a.length < twenty_sec_ms
  · refine ⟨process_short_audio a, ?_, ?_, ?_⟩
    · unfold processAudio
      rw [if_neg (by omega), if_pos hshort]
    · intro s hs
      simp only [process_short_audio, List.mem_singleton] at hs
      subst hs
      exact take_repeat_length a _ _ (le_div_succ_mul twenty_sec_ms a.length h)
    · simp [process_short_audio, expectedSegCount, hshort]
  · refine ⟨process_long_audio a, ?_, ?_, ?_⟩
    · unfold processAudio
      rw [if_neg (by omega), if_neg hshort]
    · intro s hs
      unfold process_long_audio at hs
      by_cases hr : 0 < a.length % twenty_sec_ms
      · rw [if_pos hr, List.mem_append] at hs
        rcases hs with hfull | hlast
        · exact mem_fullSegments_length a s hfull
        · rw [List.mem_singleton] at hlast
          subst hlast
          refine take_repeat_length _ _ _ ?_
          rw [pyTailSlice_length a _ (Nat.mod_le _ _)]
          exact le_div_succ_mul twenty_sec_ms _ hr
      · rw [if_neg hr] at hs
        exact mem_fullSegments_length a s hs
    · unfold process_long_audio expectedSegCount
      by_cases hr : 0 < a.length % twenty_sec_ms
      · rw [if_pos hr, if_neg hshort, if_neg (by omega), List.length_append]
        simp [fullSegments]
      · rw [if_neg hr, if_neg hshort, if_pos (by omega)]
        simp [fullSegments]

/-- C1 (witness): a 3 ms clip is padded to a single segment of exactly 20
seconds. -/
theorem segment_sizes_witness :
    ∃ segs, processAudio ([0, 1, 2] : List Int) = SegOutcome.ok segs ∧
      (∀ s ∈ segs, s.length = twenty_sec_ms) ∧
      segs.length = expectedSegCount ([0, 1, 2] : List Int).length :=
  segment_sizes_and_count [0, 1, 2] (by decide)

/-- C2: the weighted majority vote returns the positive label iff the sum of
probabilities over segments predicted 1 strictly exceeds the sum of
`1 - probability` over segments predicted 0, and equal sums give the negative
(healthy) label. -/
theorem aggregator_strict_majority (rows : List ScoredSegment) :
    (weighted_majority_voting rows = 1 ↔ weightedSum0 rows < weightedSum1 rows) ∧
    (weightedSum1 rows = weightedSum0 rows → weighted_majority_voting rows = 0) := by
  constructor
  · unfold weighted_majority_voting
    split <;> simp_all
  · intro h
    unfold weighted_majority_voting
    rw [h]
    simp

/-- C2 (witness): the spec's tie example — one positive and one negative
segment, each at probability 0.5 — yields equal sums and the negative label. -/
theorem aggregator_tie_witness :
    weightedSum1 [⟨1, 1/2⟩, ⟨0, 1/2⟩] = weightedSum0 [⟨1, 1/2⟩, ⟨0, 1/2⟩] ∧
    weighted_majority_voting [⟨1, 1/2⟩, ⟨0, 1/2⟩] = 0 := by
  have hsum : weightedSum1 [⟨1, 1/2⟩, ⟨0, 1/2⟩] = weightedSum0 [⟨1, 1/2⟩, ⟨0, 1/2⟩] := by
    simp [weightedSum1, weightedSum0, List.filter]
    norm_num
  exact ⟨hsum, (aggregator_strict_majority [⟨1, 1/2⟩, ⟨0, 1/2⟩]).2 hsum⟩

/-- C3: the per-segment label is 1 exactly when the positive-class probability
is at least the fixed constant 0.28 (a probability of exactly 0.28 classifies
positive), and every `Except.ok` result of the pipeline's per-segment step
carries a label equal to this thresholding of its own probability. -/
theorem threshold_at_boundary :
    (∀ p : ℚ, (predictedLabel p = 1 ↔ threshold ≤ p)) ∧
    predictedLabel threshold = 1 ∧ threshold = 28 / 100 ∧
    ∀ n featFn scoreFn s r, runSegment n featFn scoreFn s = Except.ok r →
      r.1 = predictedLabel r.2 := by
  refine ⟨fun p => ?_, ?_, rfl, ?_⟩
  · unfold predictedLabel
    split <;> simp_all
  · simp [predictedLabel]
  · intro n featFn scoreFn s r h
    unfold runSegment at h
    cases hL : extract_linguistic_features n featFn s.asr with
    | error e =>
      rw [hL] at h
      exact Except.noConfusion h
    | ok ling =>
      rw [hL] at h
      cases h
      rfl

/-- C3 (witness): a segment scored at exactly 0.28 gets label 1 from the
pipeline step. -/
theorem threshold_boundary_witness :
    predictedLabel threshold = 1 ∧
    ((1, threshold) : Nat × ℚ).1 = predictedLabel ((1, threshold) : Nat × ℚ).2 := by
  have h1 : predictedLabel threshold = 1 := by simp [predictedLabel]
  have h0 : runSegment 1 (fun _ => some []) (fun _ => threshold) ⟨[], some ""⟩ =
      Except.ok (predictedLabel threshold, threshold) := rfl
  refine ⟨h1, ?_⟩
  exact threshold_at_boundary.2.2.2 1 (fun _ => some []) (fun _ => threshold)
    ⟨[], some ""⟩ (1, threshold) (by rw [h0, h1])

/-- C4 (counterexample): the backend API Scorer, given a scaler that was never
fit, does NOT fail — it fits the scaler on the inference row itself and
continues to produce a probability. -/
theorem unfitted_scaler_counterexample :
    backendScore (fun _ => 1/2) Scaler.unfitted [3, 7] = Except.ok (1/2) := rfl

/-- C4 (amended): with an unfitted scaler the server scoring path fails
explicitly with `NotFittedError`, but the backend API path catches that error,
fits the scaler on the single inference row, and produces a probability. -/
theorem unfitted_scaler_paths (proba : List ℚ → ℚ) (x : List ℚ) :
    serverPredict proba Scaler.unfitted x = Except.error PyErr.notFitted ∧
    backendScore proba Scaler.unfitted x = Except.ok (proba (Scaler.fitTransformSingle x)) :=
  ⟨rfl, rfl⟩

/-- C5 (counterexample): when the native decode fails and the single re-encoded
retry also fails, `process_single_audio_file` returns normally having exported
nothing — it does not fail with a typed decode error. -/
theorem decode_failure_counterexample :
    process_single_audio_file ⟨none, some none⟩ = SegOutcome.earlyReturn ∧
    SegOutcome.earlyReturn ≠ SegOutcome.decodeError := ⟨rfl, by decide⟩

/-- C5 (amended): on decode failure segmentation re-encodes and retries exactly
once; if the re-encode or the retry fails it returns without producing segments
(no typed error), and the orchestrator, finding no segments, fails the request
with its generic failure string via `FileNotFoundError`. -/
theorem decode_failure_behaviour :
    (∀ a : List Int, process_single_audio_file ⟨none, some (some a)⟩ = processAudio a) ∧
    process_single_audio_file ⟨none, none⟩ = SegOutcome.earlyReturn ∧
    process_single_audio_file ⟨none, some none⟩ = SegOutcome.earlyReturn ∧
    ∀ n featFn scoreFn, predict_final_classification n featFn scoreFn [] =
      "Error: Could not classify audio." :=
  ⟨fun _ => rfl, rfl, rfl, fun _ _ _ => rfl⟩

/-- C6: a transcription failure is NOT segment-local — `transcribe_audio`
returns Python `None`, `None.strip()` raises `AttributeError` before the
NaN-degradation branch, and the request-level handler turns the whole request
into the generic failure string instead of a verdict from the remaining
segments. -/
theorem transcription_failure_aborts_request :
    runSegment 2 (fun _ => some [some 1, some 1]) (fun _ => 9/10) ⟨[some 1], none⟩ =
      Except.error PyErr.attributeError ∧
    predict_final_classification 2 (fun _ => some [some 1, some 1]) (fun _ => 9/10)
      [⟨[some 1], some "a b"⟩, ⟨[some 1], none⟩] = "Error: Could not classify audio." :=
  ⟨rfl, rfl⟩

/-- C7 (counterexample): a segment whose transcription is empty gets a NaN-filled
linguistic row, and the unimputed concatenation — containing missing-value
markers — is exactly what the pipeline hands to the Scorer. -/
theorem nan_reaches_scorer_counterexample :
    segmentScorerInput 3 (fun _ => some []) ⟨[none], some ""⟩ =
      Except.ok ([none] ++ nanRow 3) ∧
    ([none] ++ nanRow 3).any (fun x => x.isNone) = true := ⟨rfl, rfl⟩

/-- C7 (amended): the per-segment pipeline applies no imputation — the Scorer
receives the raw concatenation of the acoustic and linguistic rows — and the
single-row `fillna(median)` of `prepare_features` is the identity, leaving NaN
entries in place. -/
theorem pipeline_applies_no_imputation :
    (∀ n featFn s ling, extract_linguistic_features n featFn s.asr = Except.ok ling →
        segmentScorerInput n featFn s = Except.ok (s.acoustic ++ ling)) ∧
    (∀ n featFn scoreFn s,
        runSegment n featFn scoreFn s =
          (segmentScorerInput n featFn s).map
            (fun x => (predictedLabel (scoreFn x), scoreFn x))) ∧
    (∀ row, prepare_features_fill row = row) := by
  refine ⟨?_, ?_, ?_⟩
  · intro n featFn s ling h
    unfold segmentScorerInput
    rw [h]
    rfl
  · intro n featFn scoreFn s
    unfold runSegment segmentScorerInput
    cases hL : extract_linguistic_features n featFn s.asr <;> rfl
  · intro row
    unfold prepare_features_fill medianSingleRow fillna
    induction row with
    | nil => rfl
    | cons x xs ih =>
      cases x <;> simp_all

/-- C7 (witness): applying the amended theorem at a concrete segment whose
linguistic row is NaN-filled. -/
theorem pipeline_no_imputation_witness :
    segmentScorerInput 2 (fun _ => some [some 1]) ⟨[none], some ""⟩ =
      Except.ok ([none] ++ nanRow 2) :=
  pipeline_applies_no_imputation.1 2 (fun _ => some [some 1]) ⟨[none], some ""⟩
    (nanRow 2) (by rfl)

/-- C8: whatever the body of one classification request does — return a label,
raise an exception caught by the handler, or get cancelled — the `finally`
cleanup runs, and afterwards the transient processed-segment directory and the
consumed raw upload files no longer exist. -/
theorem cleanup_on_every_exit (body : FS → BodyExit String × FS) (fs : FS) :
    (predict_final_classification_fs body fs).2.processedDir = false ∧
    (predict_final_classification_fs body fs).2.recordingWav = false ∧
    (predict_final_classification_fs body fs).2.testConnectionWav = false :=
  ⟨rfl, rfl, rfl⟩

/-- C9: for a clip of `d ≥ 20s` with a nonzero remainder, the final segment is
built by looping only the last `d mod 20s` milliseconds of the clip — every one
of its 20000 ms is drawn from that remainder slice with period `d mod 20s` —
and it is truncated to exactly 20 seconds. -/
theorem last_segment_loops_remainder (a : List Int)
    (_h1 : twenty_sec_ms ≤ a.length) (h2 : a.length % twenty_sec_ms ≠ 0) :
    ∃ full last, process_long_audio a = full ++ [last] ∧
      full.length = a.length / twenty_sec_ms ∧
      last.length = twenty_sec_ms ∧
      ∀ i < twenty_sec_ms,
        last.getD i 0 =
          (pyTailSlice a (a.length % twenty_sec_ms)).getD
            (i % (a.length % twenty_sec_ms)) 0 := by
  have hr : 0 < a.length % twenty_sec_ms := Nat.pos_of_ne_zero h2
  have hlen : (pyTailSlice a (a.length % twenty_sec_ms)).length =
      a.length % twenty_sec_ms := pyTailSlice_length a _ (Nat.mod_le _ _)
  refine ⟨fullSegments a,
    (pyRepeat (pyTailSlice a (a.length % twenty_sec_ms))
      (twenty_sec_ms / (a.length % twenty_sec_ms) + 1)).take twenty_sec_ms,
    ?_, by simp [fullSegments], ?_, ?_⟩
  · unfold process_long_audio
    rw [if_pos hr]
  · refine take_repeat_length _ _ _ ?_
    rw [hlen]
    exact le_div_succ_mul _ _ hr
  · intro i hi
    have hik : i < (twenty_sec_ms / (a.length % twenty_sec_ms) + 1) *
        (pyTailSlice a (a.length % twenty_sec_ms)).length := by
      rw [hlen]
      have := le_div_succ_mul twenty_sec_ms (a.length % twenty_sec_ms) hr
      omega
    rw [getD_take _ _ _ hi, pyRepeat_getD _ _ _ hik, hlen]

/-- C9 (witness): a 20001 ms clip — one full segment plus a 1 ms remainder —
whose final segment is the remainder looped to 20 seconds. -/
theorem last_segment_witness :
    ∃ full last,
      process_long_audio (List.replicate twenty_sec_ms (0 : Int) ++ [5]) = full ++ [last] ∧
      full.length =
        (List.replicate twenty_sec_ms (0 : Int) ++ [5]).length / twenty_sec_ms ∧
      last.length = twenty_sec_ms ∧
      ∀ i < twenty_sec_ms,
        last.getD i 0 =
          (pyTailSlice (List.replicate twenty_sec_ms (0 : Int) ++ [5])
              ((List.replicate twenty_sec_ms (0 : Int) ++ [5]).length % twenty_sec_ms)).getD
            (i % ((List.replicate twenty_sec_ms (0 : Int) ++ [5]).length % twenty_sec_ms)) 0 := by
  have hlen : (List.replicate twenty_sec_ms (0 : Int) ++ [5]).length = twenty_sec_ms + 1 := by
    rw [List.length_append, List.length_replicate, List.length_cons, List.length_nil]
  refine last_segment_loops_remainder _ ?_ ?_
  · rw [hlen]
    omega
  · rw [hlen]
    unfold twenty_sec_ms
    omega

/-- C10: on the degenerate empty input the aggregator does not fail — both
direction sums are 0, the strict comparison is false, and the result is the
negative (HC) label 0. -/
theorem aggregator_empty :
    weighted_majority_voting [] = 0 ∧ weightedSum1 [] = 0 ∧ weightedSum0 [] = 0 :=
  ⟨rfl, rfl, rfl⟩

end AlzSpeech
